import Mathlib

/-!
Verification of the record normalization and classification engine of
`src/medical.py` (a medical-scheme roster dashboard).  The Python source is
shallowly embedded: dates become day numbers (proleptic Gregorian day count
with epoch 1970-01-01, matching pandas Timestamp day arithmetic), tabular
cells become `Option String` (with `none` for a missing/NaN cell), DataFrame
columns become fields of per-row structures, and every pandas operation used
by the source (to_datetime with coercion, dt.days floor-division age,
fillna, filter counts, groupby mean with NaN skipping, dropna, isin
filtering) is given an explicit executable Lean counterpart.  Statistics
that Python rounds to two decimal places are represented as integers scaled
by 100 (a value of 2403 stands for 24.03), so that every definition reduces
inside the kernel.
-/

namespace Medical

/-! ### Calendar arithmetic

Day numbers follow the standard civil-from-days algorithm used by date
libraries; `daysFromCivil 1970 1 1 = 0`.  All years handled by the program
are positive, where truncating and flooring division agree. -/

def isLeap (y : Int) : Bool :=
  (y % 4 == 0 && y % 100 != 0) || y % 400 == 0

def daysInMonth (y m : Int) : Int :=
  if m = 2 then (if isLeap y then 29 else 28)
  else if m = 4 ∨ m = 6 ∨ m = 9 ∨ m = 11 then 30
  else 31

def daysFromCivil (y m d : Int) : Int :=
  let y2 : Int := if m ≤ 2 then y - 1 else y
  let era : Int := (if 0 ≤ y2 then y2 else y2 - 399) / 400
  let yoe : Int := y2 - era * 400
  let mp : Int := (m + 9) % 12
  let doy : Int := (153 * mp + 2) / 5 + d - 1
  let doe : Int := yoe * 365 + yoe / 4 - yoe / 100 + doy
  era * 146097 + doe - 719468

/-! ### Character-list string utilities

Plain structural recursions over `List Char`, used instead of the string
primitives of the standard library so that every parse evaluates by kernel
reduction. -/

def splitOnChar (c : Char) : List Char → List (List Char)
  | [] => [[]]
  | a :: as =>
    match splitOnChar c as, decide (a = c) with
    | r, true => [] :: r
    | [], false => [[a]]
    | g :: gs, false => (a :: g) :: gs

def trimChars (l : List Char) : List Char :=
  ((l.dropWhile (·.isWhitespace)).reverse.dropWhile (·.isWhitespace)).reverse

def upperChars (l : List Char) : List Char := l.map Char.toUpper

def digitsToNat : List Char → Option Nat → Option Nat
  | [], acc => acc
  | c :: cs, acc =>
    digitsToNat cs (acc.bind fun n =>
      if c.isDigit then some (n * 10 + (c.toNat - 48)) else none)

/-- The numeric value of a nonempty all-digit character list, `none`
otherwise. -/
def digitsToNat? (l : List Char) : Option Nat :=
  if l.isEmpty then none else digitsToNat l (some 0)

def endsWithChars (suffix : List Char) (l : List Char) : Bool :=
  decide (suffix.length ≤ l.length) && l.drop (l.length - suffix.length) == suffix

def upperTrim (s : String) : String := ⟨upperChars (trimChars s.data)⟩

/-! ### Date parsing

`Birth Date` columns are parsed with
`pd.to_datetime(col, format=%d-%b-%Y, errors=coerce, dayfirst=True)`:
a strict day-dash-monthname-dash-year parse where any non-matching value
becomes null (NaT) instead of raising.  `Entry Date` uses the permissive
`pd.to_datetime(col, errors=coerce, dayfirst=True)` parse. -/

def monthNum (l : List Char) : Option Int :=
  match upperChars l with
  | ['J', 'A', 'N'] => some 1
  | ['F', 'E', 'B'] => some 2
  | ['M', 'A', 'R'] => some 3
  | ['A', 'P', 'R'] => some 4
  | ['M', 'A', 'Y'] => some 5
  | ['J', 'U', 'N'] => some 6
  | ['J', 'U', 'L'] => some 7
  | ['A', 'U', 'G'] => some 8
  | ['S', 'E', 'P'] => some 9
  | ['O', 'C', 'T'] => some 10
  | ['N', 'O', 'V'] => some 11
  | ['D', 'E', 'C'] => some 12
  | _ => none

def mkDate (d : Option Nat) (m : Option Int) (y : Option Nat) : Option Int :=
  match d, m, y with
  | some dv, some mv, some yv =>
    if 1 ≤ dv ∧ 1 ≤ yv ∧ (dv : Int) ≤ daysInMonth (yv : Int) mv then
      some (daysFromCivil (yv : Int) mv (dv : Int))
    else none
  | _, _, _ => none

/-- The strict day-first text-month parse (`%d-%b-%Y`, case-insensitive
month name), coercing to `none` on any mismatch. -/
def parseDateStrict (s : String) : Option Int :=
  match splitOnChar '-' (trimChars s.data) with
  | [ds, ms, ys] => mkDate (digitsToNat? ds) (monthNum ms) (digitsToNat? ys)
  | _ => none

/-- Numeric day-first date of the form day, month, year separated by `sep`,
as accepted by the permissive pandas parse with `dayfirst=True`. -/
def parseDateNumeric (sep : Char) (s : String) : Option Int :=
  match splitOnChar sep (trimChars s.data) with
  | [ds, ms, ys] =>
    match digitsToNat? ms with
    | some mv =>
      if 1 ≤ mv ∧ mv ≤ 12 then
        mkDate (digitsToNat? ds) (some (mv : Int)) (digitsToNat? ys)
      else none
    | none => none
  | _ => none

/-- Models the permissive day-first parse used for `Entry Date`
(`pd.to_datetime` with `dayfirst=True` and no fixed format) on the formats
the roster files use: the text-month form and numeric day-first forms with
slash or dash separators; anything else coerces to null. -/
def parseDatePermissive (s : String) : Option Int :=
  (parseDateStrict s).orElse fun _ =>
    (parseDateNumeric '/' s).orElse fun _ => parseDateNumeric '-' s

/-! ### Rounding and means

Python `round(x, 2)` and pandas `.round(2)` round half to even; pandas
`.mean()` skips nulls and yields NaN (here `none`) on an all-null input.
A value rounded to two decimals is represented as an integer number of
hundredths. -/

/-- Round-half-even of the fraction `num / den` (for `den > 0`), as Python
rounding does on an exact value. -/
def roundHalfEvenDiv (num den : Int) : Int :=
  let q : Int := Int.fdiv num den
  let r : Int := num - q * den
  if 2 * r < den then q
  else if den < 2 * r then q + 1
  else if q % 2 = 0 then q else q + 1

/-- `num / den` rounded to two decimals, in hundredths. -/
def round2Of (num den : Int) : Int := roundHalfEvenDiv (100 * num) den

/-- Mean of a list of ages rounded to two decimals, in hundredths; `none`
(NaN) for an empty list, the way a pandas mean of an all-null column is. -/
def meanAges100 (ages : List Int) : Option Int :=
  if ages.isEmpty then none
  else some (round2Of ages.sum (ages.length : Int))

/-! ### The eleven-column Full List table

The main roster is read with
`pd.read_excel(path, names=column_names, skiprows=1)` into the positional
schema Member Number, Surname, Other Name(s), Relationship, CAT, P/Cont,
Birth Date, Sex, Entry Date, Family Al Size, Status.  A raw row is the
cell tuple after that binding; a `Member` is the row after the three
normalization steps of the load (date coercion, age derivation, and
relationship classification). -/

structure RawRow where
  memberNumber : Option String
  surname : Option String
  otherNames : Option String
  relationship : Option String
  cat : Option String
  pCont : Option String
  birthDate : Option String
  sex : Option String
  entryDate : Option String
  familySize : Option String
  status : Option String
deriving DecidableEq

structure Member where
  memberNumber : Option String
  surname : Option String
  otherNames : Option String
  relationship : String
  cat : Option String
  pCont : Option String
  birthDate : Option Int
  sex : Option String
  entryDate : Option Int
  familySize : Option String
  status : Option String
  age : Option Int
deriving DecidableEq

/-- Positional binding of one raw line to the eleven declared column
names; absent trailing cells read as missing. -/
def bindRow (cells : List (Option String)) : RawRow :=
  { memberNumber := cells.getD 0 none
    surname := cells.getD 1 none
    otherNames := cells.getD 2 none
    relationship := cells.getD 3 none
    cat := cells.getD 4 none
    pCont := cells.getD 5 none
    birthDate := cells.getD 6 none
    sex := cells.getD 7 none
    entryDate := cells.getD 8 none
    familySize := cells.getD 9 none
    status := cells.getD 10 none }

/-- The per-row normalization performed by the load, at reference day
`today` (the day of `pd.Timestamp.now()`):
`Birth Date` gets the strict coercing parse, `Entry Date` the permissive
one, `Age` is `(now - BirthDate).dt.days // 365` (null when the birth date
is null), and `Relationship` is overwritten with
`"Member" if x == "Y" else "Dependent"` applied to the `P/Cont` cell. -/
def normalizeRow (today : Int) (r : RawRow) : Member :=
  let bd : Option Int := r.birthDate.bind parseDateStrict
  { memberNumber := r.memberNumber
    surname := r.surname
    otherNames := r.otherNames
    relationship := if r.pCont = some "Y" then "Member" else "Dependent"
    cat := r.cat
    pCont := r.pCont
    birthDate := bd
    sex := r.sex
    entryDate := r.entryDate.bind parseDatePermissive
    familySize := r.familySize
    status := r.status
    age := bd.map fun b => Int.fdiv (today - b) 365 }

/-- A tabular input file: its path (the extension selects the parser) and
its rows of cells, `none` when the file cannot be read at all. -/
structure RawFile where
  path : String
  contents : Option (List (List (Option String)))

/-- The normalized table built from the raw lines: the first line is a
header and is discarded (`skiprows=1`), every other line is bound to the
schema and normalized. -/
def loadBody (today : Int) (rows : List (List (Option String))) : List Member :=
  (rows.drop 1).map fun cells => normalizeRow today (bindRow cells)

/-- The guarded load of the main data file (the body of the try block):
a `.csv` or `.xlsx` path is parsed, any other extension leaves the `data`
name unbound and raises `NameError`; an unreadable file raises inside the
pandas reader; a line that does not carry the eleven declared columns
fails schema binding inside the reader.  Every raised error is caught by
the except arm and reported as one `st.error` message. -/
def tryLoadFullList (today : Int) (f : RawFile) : Except String (List Member) :=
  if endsWithChars ".csv".data f.path.data || endsWithChars ".xlsx".data f.path.data then
    match f.contents with
    | none => Except.error "Error loading the main data: unreadable file"
    | some rows =>
      if (rows.drop 1).all (fun cells => cells.length == 11) then
        Except.ok (loadBody today rows)
      else Except.error "Error loading the main data: column count mismatch"
  else Except.error "Error loading the main data: name 'data' is not defined"

/-- One run of the load block against the current session state: on
success the new table replaces the session table and no message is shown;
on failure the single error message is shown and the session state is left
as it was. -/
def loadMain (today : Int) (prev : Option (List Member)) (f : RawFile) :
    Option (List Member) × List String :=
  match tryLoadFullList today f with
  | Except.ok t => (some t, [])
  | Except.error e => (prev, [e])

/-! ### Aggregates over the normalized table -/

def memberCount (t : List Member) : Nat :=
  (t.filter fun m => m.relationship == "Member").length

def dependentCount (t : List Member) : Nat :=
  (t.filter fun m => m.relationship == "Dependent").length

/-- The Staff vs Dependents statistic
`round(dependent_count / staff_count, 2) if staff_count > 0 else 0`,
in hundredths. -/
def avgDependentsPerStaff (t : List Member) : Int :=
  if 0 < memberCount t then round2Of (dependentCount t : Int) (memberCount t : Int)
  else 0

/-- The Family Analysis statistic, the same guarded ratio computed a second
time from its own counts, in hundredths. -/
def avgDependentsPerFamily (t : List Member) : Int :=
  if 0 < memberCount t then round2Of (dependentCount t : Int) (memberCount t : Int)
  else 0

/-- The ratio exactly as the specification words it:
`count(Dependent) / count(Member)` rounded to 2 decimal places, defined as
0 when the denominator is 0; in hundredths. -/
def specDependentsRatio (t : List Member) : Int :=
  if memberCount t = 0 then 0
  else round2Of (dependentCount t : Int) (memberCount t : Int)

/-- The `fillna` sentinel of the category cleanup. -/
def fillCat (c : Option String) : String := c.getD "Not Specified"

/-- Non-null ages of the rows of one category group, the group key being
the cleaned CAT value. -/
def agesOfCat (t : List Member) (c : String) : List Int :=
  (t.filter fun m => fillCat m.cat == c).filterMap Member.age

/-- `data.groupby(CAT)[Age].mean().round(2)` for one group: the mean over
the non-null ages of the group rows, NaN (`none`) when the group has no
non-null age; in hundredths. -/
def avgAgeByCat (t : List Member) (c : String) : Option Int :=
  meanAges100 (agesOfCat t c)

/-- Non-null ages of the rows of one relationship value. -/
def agesOfRel (t : List Member) (rel : String) : List Int :=
  (t.filter fun m => m.relationship == rel).filterMap Member.age

/-- The dashboard per-relationship average age
`round(data[data[Relationship] == rel][Age].mean(), 2)`, NaN (`none`) when
the group has no non-null age; in hundredths. -/
def avgAgeOfRel (t : List Member) (rel : String) : Option Int :=
  meanAges100 (agesOfRel t rel)

/-! ### The analysis views and their effect on the session table

Each sidebar option reads the session table.  The Current Members Category
Analysis option additionally executes
`data[CAT] = data[CAT].fillna(Not Specified)` on the very DataFrame object
held in `st.session_state`, an in-place column write; every other option
only builds fresh derived frames. -/

inductive View where
  | dashboardOverview
  | loadData
  | staffVsDependents
  | ageDistribution
  | familyAnalysis
  | genderDistribution
  | leaversAnalysis
  | currentMembersCategoryAnalysis
  | leaversCategoryAnalysis
deriving DecidableEq

/-- The in-place CAT cleanup of one row. -/
def fillCatRow (m : Member) : Member := { m with cat := some (fillCat m.cat) }

/-- The session table after the selected view has computed its statistics. -/
def applyView (v : View) (t : List Member) : List Member :=
  match v with
  | View.currentMembersCategoryAnalysis => t.map fillCatRow
  | _ => t

/-! ### The leavers table

The leavers file is read into the positional schema NAMES, DATE OF BIRTH,
SEX, RELATIONSHIP, CAT; the date of birth gets the strict coercing parse
and the same floor age derivation.  The Leavers Analysis view then drops
rows with a null SEX, uppercases and trims SEX, and keeps only rows whose
RELATIONSHIP is EMPLOYEE or DEPENDENT; the Leavers Category Analysis view
reloads the file and only cleans CAT, with no SEX drop and no relationship
filter. -/

structure LeaverRaw where
  names : Option String
  dob : Option String
  sex : Option String
  relationship : Option String
  cat : Option String
deriving DecidableEq

structure Leaver where
  names : Option String
  dob : Option Int
  sex : Option String
  relationship : Option String
  cat : Option String
  age : Option Int
deriving DecidableEq

def processLeaver (today : Int) (l : LeaverRaw) : Leaver :=
  let bd : Option Int := l.dob.bind parseDateStrict
  { names := l.names
    dob := bd
    sex := l.sex
    relationship := l.relationship
    cat := l.cat
    age := bd.map fun b => Int.fdiv (today - b) 365 }

/-- `str.strip().str.upper()` on the SEX column. -/
def upperSexLeaver (l : Leaver) : Leaver :=
  { l with sex := l.sex.map upperTrim }

/-- The Leavers Analysis frame after `dropna(subset=[SEX])` and the SEX
cleanup. -/
def leaversClean (today : Int) (rows : List LeaverRaw) : List Leaver :=
  (((rows.map (processLeaver today)).filter fun l => l.sex.isSome).map upperSexLeaver)

def isWhitelisted (l : Leaver) : Bool :=
  l.relationship == some "EMPLOYEE" || l.relationship == some "DEPENDENT"

/-- `leavers_data[leavers_data[RELATIONSHIP].isin([EMPLOYEE, DEPENDENT])]`,
the frame every Leavers Analysis statistic is computed from. -/
def leaversFiltered (today : Int) (rows : List LeaverRaw) : List Leaver :=
  (leaversClean today rows).filter isWhitelisted

def totalLeavers (today : Int) (rows : List LeaverRaw) : Nat :=
  (leaversFiltered today rows).length

def totalEmployeesL (today : Int) (rows : List LeaverRaw) : Nat :=
  ((leaversFiltered today rows).filter fun l => l.relationship == some "EMPLOYEE").length

def totalDependentsL (today : Int) (rows : List LeaverRaw) : Nat :=
  ((leaversFiltered today rows).filter fun l => l.relationship == some "DEPENDENT").length

/-- `round(leavers_data_filtered[Age].mean(), 2)`, in hundredths, NaN
(`none`) when no filtered row has a non-null age. -/
def avgAgeLeavers (today : Int) (rows : List LeaverRaw) : Option Int :=
  meanAges100 ((leaversFiltered today rows).filterMap Leaver.age)

/-- The Leavers Category Analysis frame: a fresh read of the leavers file
with only the CAT cleanup applied, keeping every row. -/
def leaversCatData (today : Int) (rows : List LeaverRaw) : List Leaver :=
  (rows.map (processLeaver today)).map fun l => { l with cat := some (fillCat l.cat) }

/-- One cell of `leavers_data[CAT].value_counts()` in the category view. -/
def leaversCatDistribution (today : Int) (rows : List LeaverRaw) (c : String) : Nat :=
  ((leaversCatData today rows).filter fun l => l.cat == some c).length

/-- One cell of the Category by Relationship crosstab of the category
view. -/
def leaversCatCrosstab (today : Int) (rows : List LeaverRaw) (c rel : String) : Nat :=
  ((leaversCatData today rows).filter fun l =>
    l.cat == some c && l.relationship == some rel).length

/-- One group of `leavers_data.groupby(CAT)[Age].mean().round(2)` in the
category view; in hundredths. -/
def leaversCatAvgAge (today : Int) (rows : List LeaverRaw) (c : String) : Option Int :=
  meanAges100 (((leaversCatData today rows).filter fun l => l.cat == some c).filterMap Leaver.age)

/-! ### The nine-column derived-role classification -/

/-- Modelled from the spec: the derived-role variant of step 4 of the
Loader/Normalizer (the 9-column schema with no relationship column in the
source) is not implemented in `src/medical.py`, which only carries the
11-column declared-role load; its classification rule is taken verbatim
from the specification: `RelationshipRole = Staff` if
`PrincipalFlag == "Y"`; else `Spouse` if `Sex ∈ {M,F}` and `Age ≥ 18`;
else `Child`. -/
def relationshipRole (pCont sex : String) (age : Option Int) : String :=
  if pCont = "Y" then "Staff"
  else
    match age with
    | some a => if (sex = "M" ∨ sex = "F") ∧ 18 ≤ a then "Spouse" else "Child"
    | none => "Child"

/-! ### Concrete fixtures -/

/-- The reference day 2024-01-20 of the worked age example. -/
def refDay2024 : Int := daysFromCivil 2024 1 20

def headerLine : List (Option String) :=
  [some "Member Number", some "Surname", some "Other Name(s)", some "Relationship",
   some "CAT", some "P/Cont", some "Birth Date", some "Sex", some "Entry Date",
   some "Family Al Size", some "Status"]

/-- A principal-member line with a parseable birth date and a raw
relationship cell reading SPOUSE. -/
def line1 : List (Option String) :=
  [some "1", some "DOE", some "JOHN", some "SPOUSE", some "A", some "Y",
   some "15-Jan-2000", some "M", some "01/02/2010", some "3", some "ACTIVE"]

/-- A dependent line whose birth date cell is the unparsable text N/A. -/
def line2 : List (Option String) :=
  [some "2", some "DOE", some "JANE", some "CHILD", none, none,
   some "N/A", some "F", none, some "3", some "ACTIVE"]

def fileOk : RawFile :=
  { path := "data/Full List.xlsx", contents := some [headerLine, line1, line2] }

def fileBadExt : RawFile :=
  { path := "data/Full List.txt", contents := some [headerLine, line1] }

/-! ### Shape lemmas about the load -/

theorem tryLoad_ok_shape (today : Int) (path : String)
    (rows : List (List (Option String))) (t : List Member)
    (h : tryLoadFullList today ⟨path, some rows⟩ = Except.ok t) :
    t = loadBody today rows := by
  unfold tryLoadFullList at h
  split at h
  · split at h
    next heq => exact Option.noConfusion heq
    next rows2 heq =>
      injection heq with heq2
      subst heq2
      split at h
      · injection h with h2
        exact h2.symm
      · exact Except.noConfusion h
  · exact Except.noConfusion h

theorem tryLoad_ok_contents (today : Int) (f : RawFile) (t : List Member)
    (h : tryLoadFullList today f = Except.ok t) :
    ∃ rows, f.contents = some rows ∧ t = loadBody today rows := by
  obtain ⟨path, contents⟩ := f
  rcases contents with _ | rows
  · exfalso
    unfold tryLoadFullList at h
    split at h
    · split at h
      next heq => exact Except.noConfusion h
      next rows2 heq => exact Option.noConfusion heq
    · exact Except.noConfusion h
  · exact ⟨rows, rfl, tryLoad_ok_shape today path rows t h⟩

theorem mem_loadBody_relationship (today : Int)
    (rows : List (List (Option String))) (m : Member)
    (hm : m ∈ loadBody today rows) :
    m.relationship = if m.pCont = some "Y" then "Member" else "Dependent" := by
  rcases List.mem_map.mp hm with ⟨cells, _, rfl⟩
  rfl

/-! ### C1 -/

/-- C1: every row of the loaded 11-column table has its derived
Relationship equal to Member exactly when the P/Cont cell of the row is Y
and Dependent otherwise; the derived value depends neither on the age and
sex cells nor on the raw relationship column value, which it replaces. -/
theorem relationship_overrides_raw_column (today : Int) (f : RawFile)
    (t : List Member) (h : tryLoadFullList today f = Except.ok t) :
    (∀ m ∈ t, m.relationship = if m.pCont = some "Y" then "Member" else "Dependent")
    ∧ ∀ (r : RawRow) (v bd sx : Option String),
        (normalizeRow today { r with relationship := v, birthDate := bd, sex := sx }).relationship
          = (normalizeRow today r).relationship := by
  constructor
  · intro m hm
    rcases tryLoad_ok_contents today f t h with ⟨rows, _, rfl⟩
    exact mem_loadBody_relationship today rows m hm
  · intro r v bd sx
    rfl

/-- C1 witness: in the concrete two-line file, the P/Cont Y row comes out
Member although its raw relationship cell reads SPOUSE, and the blank
P/Cont row comes out Dependent. -/
theorem relationship_overrides_raw_column_witness :
    (normalizeRow refDay2024 (bindRow line1)).relationship = "Member"
    ∧ (normalizeRow refDay2024 (bindRow line2)).relationship = "Dependent" := by
  have h := (relationship_overrides_raw_column refDay2024 fileOk
    (loadBody refDay2024 [headerLine, line1, line2]) rfl).1
  constructor
  · rw [h _ (List.mem_cons_self _ _)]; rfl
  · rw [h _ (List.mem_cons_of_mem _ (List.mem_cons_self _ _))]; rfl

/-! ### C2 -/

/-- C2: the derived Age of every normalized row is the floor of the day
difference between the load reference day and the birth date divided by
365, and is null when the birth date is null. -/
theorem age_is_floor_days_div_365 (today : Int) (r : RawRow) :
    ((normalizeRow today r).birthDate = none → (normalizeRow today r).age = none)
    ∧ ∀ b : Int, (normalizeRow today r).birthDate = some b →
        (normalizeRow today r).age = some (Int.fdiv (today - b) 365) := by
  refine ⟨fun h => ?_, fun b h => ?_⟩
  · show (r.birthDate.bind parseDateStrict).map (fun b => Int.fdiv (today - b) 365) = none
    rw [show r.birthDate.bind parseDateStrict = none from h]
    rfl
  · show (r.birthDate.bind parseDateStrict).map (fun x => Int.fdiv (today - x) 365)
      = some (Int.fdiv (today - b) 365)
    rw [show r.birthDate.bind parseDateStrict = some b from h]
    rfl

/-- C2 witness: birth date 15-Jan-2000 against reference day 2024-01-20 is
8771 days, and the derived age is floor(8771 / 365) = 24. -/
theorem age_is_floor_days_div_365_witness :
    (normalizeRow refDay2024 (bindRow line1)).age = some 24
    ∧ refDay2024 - daysFromCivil 2000 1 15 = 8771 := by
  have h := (age_is_floor_days_div_365 refDay2024 (bindRow line1)).2
    (daysFromCivil 2000 1 15) rfl
  rw [h]
  exact ⟨by decide, by decide⟩

/-! ### C9 -/

/-- C9: a fatally failing load (unreadable file, unsupported extension, or
schema mismatch) reports exactly one descriptive error message, produces no
normalized table, and leaves the previously published table as the session
state. -/
theorem failed_load_preserves_session (today : Int) (prev : Option (List Member))
    (f : RawFile) (e : String) (h : tryLoadFullList today f = Except.error e) :
    loadMain today prev f = (prev, [e]) := by
  unfold loadMain
  rw [h]

/-- C9 witness: loading a path with an unsupported extension keeps the
previous (empty) table as the session state and reports the one NameError
message. -/
theorem failed_load_preserves_session_witness :
    loadMain refDay2024 (some []) fileBadExt
      = (some [], ["Error loading the main data: name 'data' is not defined"]) :=
  failed_load_preserves_session refDay2024 (some []) fileBadExt _ rfl

/-! ### C3 -/

/-- C3 (amended): any BirthDate or EntryDate value that fails to parse is
set to null without raising and without aborting the load, which still
returns the full row count; but no warning is surfaced at all — a
successful load reports zero messages even when rows produced null
dates. -/
theorem unparsable_dates_null_no_warning (today : Int)
    (prev : Option (List Member)) (f : RawFile) (t : List Member)
    (h : tryLoadFullList today f = Except.ok t) :
    (loadMain today prev f).1 = some t
    ∧ (loadMain today prev f).2 = []
    ∧ (∀ rows, f.contents = some rows → t.length = rows.length - 1)
    ∧ ∀ r : RawRow,
        (normalizeRow today r).birthDate = r.birthDate.bind parseDateStrict
        ∧ (normalizeRow today r).entryDate = r.entryDate.bind parseDatePermissive := by
  refine ⟨?_, ?_, ?_, fun r => ⟨rfl, rfl⟩⟩
  · unfold loadMain; rw [h]
  · unfold loadMain; rw [h]
  · intro rows hc
    rcases tryLoad_ok_contents today f t h with ⟨rows2, hc2, rfl⟩
    rw [hc] at hc2
    injection hc2 with e
    subst e
    simp [loadBody]

/-- C3 witness: the concrete file whose second line has the unparsable
birth date N/A still loads both body rows and reports no message. -/
theorem unparsable_dates_null_no_warning_witness :
    (loadMain refDay2024 none fileOk).2 = []
    ∧ ((loadMain refDay2024 none fileOk).1.getD []).length = 2 := by
  have h := unparsable_dates_null_no_warning refDay2024 none fileOk
    (loadBody refDay2024 [headerLine, line1, line2]) rfl
  refine ⟨h.2.1, ?_⟩
  rw [h.1]
  simpa using h.2.2.1 [headerLine, line1, line2] rfl

/-- C3 counterexample: that same load leaves one row with a null birth
date, yet its message list is empty — no warning naming the affected
column is ever surfaced. -/
theorem unparsable_dates_no_warning_counterexample :
    ((loadMain refDay2024 none fileOk).1.getD []).length = 2
    ∧ (((loadMain refDay2024 none fileOk).1.getD []).filter
        (fun m => m.birthDate.isNone)).length = 1
    ∧ (loadMain refDay2024 none fileOk).2 = [] :=
  ⟨rfl, rfl, rfl⟩

/-! ### C4 -/

/-- C4: both occurrences of the dependents-to-members ratio (the Staff vs
Dependents view and the Family Analysis view) equal the specified guarded
ratio: dependents over members rounded to two decimal places when there is
at least one member, and exactly 0 when there are none, so the statistic
is always a defined number. -/
theorem dependents_ratio_guarded (t : List Member) :
    avgDependentsPerStaff t = specDependentsRatio t
    ∧ avgDependentsPerFamily t = specDependentsRatio t := by
  have key : avgDependentsPerStaff t = specDependentsRatio t := by
    unfold avgDependentsPerStaff specDependentsRatio
    rcases Nat.eq_zero_or_pos (memberCount t) with h | h
    · simp [h]
    · simp [h, Nat.pos_iff_ne_zero.mp h]
  exact ⟨key, key⟩

/-! ### C5 -/

/-- C5 (amended): the per-group mean age is the mean of Age over the rows
of the group excluding null ages, rounded to two decimal places; but a
group containing rows only with null Age reports NaN (an undefined value),
not 0.  The same holds for the per-relationship dashboard averages. -/
theorem group_mean_age_skips_null (t : List Member) (c rel : String) :
    (agesOfCat t c = [] → avgAgeByCat t c = none)
    ∧ (agesOfCat t c ≠ [] →
        avgAgeByCat t c
          = some (round2Of (agesOfCat t c).sum ((agesOfCat t c).length : Int)))
    ∧ (∀ m : Member, m.age = none → agesOfCat (m :: t) c = agesOfCat t c)
    ∧ (agesOfRel t rel = [] → avgAgeOfRel t rel = none)
    ∧ (agesOfRel t rel ≠ [] →
        avgAgeOfRel t rel
          = some (round2Of (agesOfRel t rel).sum ((agesOfRel t rel).length : Int))) := by
  refine ⟨fun h => ?_, fun h => ?_, fun m hm => ?_, fun h => ?_, fun h => ?_⟩
  · unfold avgAgeByCat meanAges100; rw [h]; rfl
  · rcases hl : agesOfCat t c with _ | ⟨a, as⟩
    · exact absurd hl h
    · unfold avgAgeByCat meanAges100
      rw [hl]
      rfl
  · cases hc : fillCat m.cat == c <;>
      simp [agesOfCat, List.filter_cons, hc, List.filterMap_cons, hm]
  · unfold avgAgeOfRel meanAges100; rw [h]; rfl
  · rcases hl : agesOfRel t rel with _ | ⟨a, as⟩
    · exact absurd hl h
    · unfold avgAgeOfRel meanAges100
      rw [hl]
      rfl

/-- A normalized dependent row in category X with a null age. -/
def memberNoAge : Member :=
  { memberNumber := some "9", surname := some "ROE", otherNames := none,
    relationship := "Dependent", cat := some "X", pCont := none,
    birthDate := none, sex := some "F", entryDate := none,
    familySize := none, status := some "ACTIVE", age := none }

/-- A normalized member row in category X aged 30. -/
def memberAged30 : Member :=
  { memberNumber := some "8", surname := some "POE", otherNames := none,
    relationship := "Member", cat := some "X", pCont := some "Y",
    birthDate := some 0, sex := some "M", entryDate := none,
    familySize := none, status := some "ACTIVE", age := some 30 }

/-- C5 witness: category X over one aged-30 row and one null-age row
averages 30.00 — the null age is excluded from the mean. -/
theorem group_mean_age_skips_null_witness :
    avgAgeByCat [memberAged30, memberNoAge] "X" = some 3000 := by
  have h := (group_mean_age_skips_null [memberAged30, memberNoAge] "X" "Member").2.1
    (by decide)
  rw [h]
  decide

/-- C5 counterexample: a category group holding one row whose age is null
reports NaN (none), not the claimed 0. -/
theorem group_mean_age_nan_counterexample :
    (([memberNoAge].filter fun m => fillCat m.cat == "X").length = 1)
    ∧ avgAgeByCat [memberNoAge] "X" = none :=
  ⟨rfl, rfl⟩

/-! ### C6 -/

/-- C6 (amended): every analysis view except Current Members Category
Analysis leaves the session table unchanged; that view writes the CAT
column of the session-held table in place, replacing a null CAT of each
row with the sentinel and leaving every other field of every row
unchanged. -/
theorem views_readonly_except_category (v : View) (t : List Member) (m : Member) :
    (v ≠ View.currentMembersCategoryAnalysis → applyView v t = t)
    ∧ applyView View.currentMembersCategoryAnalysis t = t.map fillCatRow
    ∧ (fillCatRow m).memberNumber = m.memberNumber
    ∧ (fillCatRow m).surname = m.surname
    ∧ (fillCatRow m).otherNames = m.otherNames
    ∧ (fillCatRow m).relationship = m.relationship
    ∧ (fillCatRow m).pCont = m.pCont
    ∧ (fillCatRow m).birthDate = m.birthDate
    ∧ (fillCatRow m).sex = m.sex
    ∧ (fillCatRow m).entryDate = m.entryDate
    ∧ (fillCatRow m).familySize = m.familySize
    ∧ (fillCatRow m).status = m.status
    ∧ (fillCatRow m).age = m.age
    ∧ (fillCatRow m).cat = some (fillCat m.cat) := by
  refine ⟨fun hv => ?_, rfl, rfl, rfl, rfl, rfl, rfl, rfl, rfl, rfl, rfl, rfl, rfl, rfl⟩
  cases v <;> first | rfl | exact absurd rfl hv

/-- C6 witness: a view other than Current Members Category Analysis leaves
a concrete one-row table untouched. -/
theorem views_readonly_except_category_witness :
    applyView View.dashboardOverview [memberNoAge] = [memberNoAge] :=
  (views_readonly_except_category View.dashboardOverview [memberNoAge] memberNoAge).1
    (by decide)

/-- A normalized row whose CAT cell is missing. -/
def memberNullCat : Member := { memberNoAge with cat := none }

/-- C6 counterexample: computing the Current Members Category Analysis
view over a session table holding a row with a null CAT changes that row
of the session table, so not every view leaves the table unchanged. -/
theorem category_view_mutates_counterexample :
    applyView View.currentMembersCategoryAnalysis [memberNullCat] ≠ [memberNullCat] := by
  decide

/-! ### C7 -/

theorem length_eq_filter_add_filter {α : Type} (p q : α → Bool) (L : List α)
    (hall : ∀ l ∈ L, p l = true ∨ q l = true)
    (hexcl : ∀ l ∈ L, ¬(p l = true ∧ q l = true)) :
    L.length = (L.filter p).length + (L.filter q).length := by
  induction L with
  | nil => rfl
  | cons a as ih =>
    have ha := hall a (List.mem_cons_self a as)
    have hx := hexcl a (List.mem_cons_self a as)
    have ih2 := ih (fun l hl => hall l (List.mem_cons_of_mem a hl))
      (fun l hl => hexcl l (List.mem_cons_of_mem a hl))
    cases hp : p a with
    | true =>
      cases hq : q a with
      | true => exact absurd ⟨hp, hq⟩ hx
      | false =>
        simp [List.filter_cons, hp, hq]
        omega
    | false =>
      cases hq : q a with
      | true =>
        simp [List.filter_cons, hp, hq]
        omega
      | false => simp [hp, hq] at ha

/-- C7 (amended): every statistic of the Leavers Analysis view (row
listing, relationship breakdown, gender distribution, totals, mean age) is
computed only over rows whose relationship label is EMPLOYEE or DEPENDENT,
and in particular the total splits into the two groups; but the category
breakdowns of the Leavers Category Analysis view are computed over all
leaver rows without the whitelist filter: prepending a row with any other
label leaves the Leavers Analysis total unchanged while the category
distribution count of its category grows by one. -/
theorem leavers_whitelist_analysis_only (today : Int) (rows : List LeaverRaw) :
    (∀ l ∈ leaversFiltered today rows,
        l.relationship = some "EMPLOYEE" ∨ l.relationship = some "DEPENDENT")
    ∧ totalLeavers today rows = totalEmployeesL today rows + totalDependentsL today rows
    ∧ ∀ l : LeaverRaw,
        l.relationship ≠ some "EMPLOYEE" → l.relationship ≠ some "DEPENDENT" →
          totalLeavers today (l :: rows) = totalLeavers today rows
          ∧ leaversCatDistribution today (l :: rows) (fillCat l.cat)
              = leaversCatDistribution today rows (fillCat l.cat) + 1 := by
  have hmem : ∀ l ∈ leaversFiltered today rows,
      l.relationship = some "EMPLOYEE" ∨ l.relationship = some "DEPENDENT" := by
    intro l hl
    have h2 := (List.mem_filter.mp hl).2
    simpa [isWhitelisted, Bool.or_eq_true, beq_iff_eq] using h2
  refine ⟨hmem, ?_, fun l hE hD => ⟨?_, ?_⟩⟩
  · exact length_eq_filter_add_filter
      (fun x => x.relationship == some "EMPLOYEE")
      (fun x => x.relationship == some "DEPENDENT")
      (leaversFiltered today rows)
      (fun x hx => by rcases hmem x hx with h | h <;> simp [h])
      (fun x hx ⟨hp, hq⟩ => by
        simp only [beq_iff_eq] at hp hq
        rw [hp] at hq
        simp at hq)
  · have hps : (processLeaver today l).sex = l.sex := rfl
    have hrel : isWhitelisted (upperSexLeaver (processLeaver today l)) = false := by
      show (l.relationship == some "EMPLOYEE" || l.relationship == some "DEPENDENT") = false
      simp [hE, hD]
    unfold totalLeavers leaversFiltered leaversClean
    cases hs : l.sex with
    | none => simp [List.map_cons, List.filter_cons, hps, hs]
    | some s => simp [List.map_cons, List.filter_cons, hps, hs, hrel]
  · have hpc : (processLeaver today l).cat = l.cat := rfl
    unfold leaversCatDistribution leaversCatData
    simp [List.map_cons, List.filter_cons, hpc]

/-- A leaver row whose relationship label is outside the whitelist. -/
def spouseLeaver : LeaverRaw :=
  { names := some "ANN BEE", dob := some "01-Jan-1980", sex := some "F",
    relationship := some "SPOUSE", cat := some "GOLD" }

/-- C7 witness: prepending the SPOUSE leaver leaves the Leavers Analysis
total at zero while the GOLD category count grows to one. -/
theorem leavers_whitelist_analysis_only_witness :
    totalLeavers refDay2024 [spouseLeaver] = totalLeavers refDay2024 []
    ∧ leaversCatDistribution refDay2024 [spouseLeaver] "GOLD"
        = leaversCatDistribution refDay2024 [] "GOLD" + 1 := by
  have h := (leavers_whitelist_analysis_only refDay2024 []).2.2 spouseLeaver
    (by decide) (by decide)
  exact ⟨h.1, h.2⟩

/-- C7 counterexample: the single SPOUSE leaver is dropped from every
Leavers Analysis statistic yet is counted by the category distribution of
the Leavers Category Analysis view, which the claim said was also
whitelist-filtered. -/
theorem leavers_category_not_whitelisted_counterexample :
    leaversCatDistribution refDay2024 [spouseLeaver] "GOLD" = 1
    ∧ leaversFiltered refDay2024 [spouseLeaver] = [] :=
  ⟨rfl, rfl⟩

/-! ### C8 -/

/-- C8: the spec-modelled derived-role classification of the 9-column
schema assigns Staff whenever PrincipalFlag is Y regardless of age and
sex; a non-principal row with known age at least 18 and sex M or F is a
Spouse; every other non-principal row is a Child. -/
theorem derived_role_classification (pCont sex : String) (age : Option Int) :
    (pCont = "Y" → relationshipRole pCont sex age = "Staff")
    ∧ (pCont ≠ "Y" →
        (∀ a : Int, age = some a →
          ((18 ≤ a ∧ (sex = "M" ∨ sex = "F")) →
              relationshipRole pCont sex age = "Spouse")
          ∧ (¬(18 ≤ a ∧ (sex = "M" ∨ sex = "F")) →
              relationshipRole pCont sex age = "Child"))
        ∧ (age = none → relationshipRole pCont sex age = "Child")) := by
  refine ⟨fun hy => ?_, fun hn => ⟨fun a ha => ?_, fun ha => ?_⟩⟩
  · unfold relationshipRole
    rw [if_pos hy]
  · subst ha
    refine ⟨fun hc => ?_, fun hc => ?_⟩
    · show (if pCont = "Y" then "Staff"
          else if (sex = "M" ∨ sex = "F") ∧ 18 ≤ a then "Spouse" else "Child") = "Spouse"
      rw [if_neg hn, if_pos ⟨hc.2, hc.1⟩]
    · show (if pCont = "Y" then "Staff"
          else if (sex = "M" ∨ sex = "F") ∧ 18 ≤ a then "Spouse" else "Child") = "Child"
      rw [if_neg hn, if_neg fun hcc => hc ⟨hcc.2, hcc.1⟩]
  · subst ha
    show (if pCont = "Y" then "Staff" else "Child") = "Child"
    rw [if_neg hn]

/-- C8 witness: an adult female non-principal is a Spouse, a principal is
Staff whatever the age and sex, and a ten-year-old non-principal is a
Child. -/
theorem derived_role_classification_witness :
    relationshipRole "N" "F" (some 30) = "Spouse"
    ∧ relationshipRole "Y" "F" (some 30) = "Staff"
    ∧ relationshipRole "N" "F" (some 10) = "Child" := by
  refine ⟨?_, ?_, ?_⟩
  · exact (((derived_role_classification "N" "F" (some 30)).2 (by decide)).1 30 rfl).1
      (by decide)
  · exact (derived_role_classification "Y" "F" (some 30)).1 rfl
  · exact (((derived_role_classification "N" "F" (some 10)).2 (by decide)).1 10 rfl).2
      (by decide)

/-! ### C10 -/

/-- C10: a leaver row with a null Sex is dropped from the Leavers Analysis
dataset before the whitelist filter and before any statistic — prepending
such a row changes neither the filtered row listing nor the totals, the
per-relationship totals, or the mean leaver age — while the Leavers
Category Analysis dataset keeps the row. -/
theorem null_sex_dropped_in_leavers_analysis (today : Int) (l : LeaverRaw)
    (rows : List LeaverRaw) (h : l.sex = none) :
    leaversFiltered today (l :: rows) = leaversFiltered today rows
    ∧ totalLeavers today (l :: rows) = totalLeavers today rows
    ∧ totalEmployeesL today (l :: rows) = totalEmployeesL today rows
    ∧ totalDependentsL today (l :: rows) = totalDependentsL today rows
    ∧ avgAgeLeavers today (l :: rows) = avgAgeLeavers today rows
    ∧ leaversCatData today (l :: rows)
        = { processLeaver today l with cat := some (fillCat l.cat) }
          :: leaversCatData today rows := by
  have hps : (processLeaver today l).sex = l.sex := rfl
  have hf : leaversFiltered today (l :: rows) = leaversFiltered today rows := by
    unfold leaversFiltered leaversClean
    simp [List.map_cons, List.filter_cons, hps, h]
  refine ⟨hf, ?_, ?_, ?_, ?_, rfl⟩
  · unfold totalLeavers; rw [hf]
  · unfold totalEmployeesL; rw [hf]
  · unfold totalDependentsL; rw [hf]
  · unfold avgAgeLeavers; rw [hf]

/-- A leaver row with a missing SEX cell and a whitelisted relationship. -/
def nullSexLeaver : LeaverRaw :=
  { names := some "NO SEX", dob := some "02-Feb-1990", sex := none,
    relationship := some "EMPLOYEE", cat := some "GOLD" }

/-- C10 witness: the null-Sex employee leaver contributes nothing to the
Leavers Analysis total but appears in the Leavers Category Analysis
dataset. -/
theorem null_sex_dropped_in_leavers_analysis_witness :
    totalLeavers refDay2024 [nullSexLeaver] = totalLeavers refDay2024 []
    ∧ leaversCatData refDay2024 [nullSexLeaver]
        = { processLeaver refDay2024 nullSexLeaver with
              cat := some (fillCat nullSexLeaver.cat) }
          :: leaversCatData refDay2024 [] := by
  have h := null_sex_dropped_in_leavers_analysis refDay2024 nullSexLeaver [] rfl
  exact ⟨h.2.1, h.2.2.2.2.2⟩

end Medical
